import Mathlib

/-!
Shallow embedding of `src/cloud_provider/service.rs`: the deployment orchestration
core (service model, lifecycle dispatch, chart-release and provisioner deployers,
error reporting pipeline, progress-monitor wait loops).

External collaborators (template renderer, cluster client, chart manager,
provisioner binary) are modelled as a `World` record of call outcomes; every
embedded operation returns the list of collaborator calls it issued (`Op` trace)
together with its `Except` result, mirroring the Rust control flow step by step.
-/
namespace EngineService

/-- Underlying collaborator error (command output / parse diagnostic).
Modelled from the spec: `CommandError` lives in `errors.rs` which is not in
`src/`; only the carried message is relevant here. -/
structure CommandError where
  message : String
deriving DecidableEq, Repr

/-- Chart-manager error. Modelled from the spec: the helm error type lives in
`cmd/helm.rs` which is not in `src/`; only the carried message is relevant. -/
structure HelmError where
  message : String
deriving DecidableEq, Repr

/-- Rust `Action` enum (service.rs lines 248-253). -/
inductive Action
  | Create
  | Pause
  | Delete
  | Nothing
deriving DecidableEq, Repr

/-- Rust `DatabaseType` enum (service.rs lines 271-276). -/
inductive DatabaseType
  | PostgreSQL
  | MongoDB
  | MySQL
  | Redis
deriving DecidableEq, Repr

/-- `impl ToString for DatabaseType` (service.rs lines 278-287). -/
def DatabaseType.toStr : DatabaseType → String
  | .PostgreSQL => "PostgreSQL"
  | .MongoDB => "MongoDB"
  | .MySQL => "MySQL"
  | .Redis => "Redis"

/-- Rust `ServiceType` enum (service.rs lines 290-294). -/
inductive ServiceType
  | Application
  | Database (db : DatabaseType)
  | Router
deriving DecidableEq, Repr

/-- `ServiceType::name` (service.rs lines 297-303). -/
def ServiceType.name : ServiceType → String
  | .Application => "Application"
  | .Database db => db.toStr ++ " database"
  | .Router => "Router"

/-- Pipeline steps of the `Stage::Environment` variant used by service.rs. -/
inductive EnvironmentStep
  | Deploy
  | Pause
  | Delete
  | ScaleDown
deriving DecidableEq, Repr

/-- Event stage (events.rs, only the `Environment` variant is used here). -/
inductive Stage
  | Environment (step : EnvironmentStep)
deriving DecidableEq, Repr

/-- Execution context of a service (`Context`, io_models.rs). Only the fields
read by the embedded operations are kept: identifiers used by
`get_event_details`, the namespace-TTL source, and the dry-run flag. -/
structure Context where
  organization_id : String
  cluster_id : String
  execution_id : String
  workspace_root_dir : String
  resource_expiration_in_seconds : Option Nat
  is_dry_run_deploy : Bool
deriving DecidableEq, Repr

/-- Contextual envelope attached to events (`EventDetails`, events.rs).
The transmitter payload is elided: no embedded operation reads it. -/
structure EventDetails where
  organisation_id : String
  cluster_id : String
  execution_id : String
  stage : Stage
deriving DecidableEq, Repr

/-- Target environment; only the derived `namespace()` accessor is read by
the operations of service.rs, the other identity fields are elided. -/
structure Environment where
  namespace' : String
deriving DecidableEq, Repr

/-- `DeploymentTarget`: read-only aggregate passed into every operation.
The live cluster/kube handles are modelled by `World`; the only cluster-context
datum read here is `kubernetes.context().execution_id()`. -/
structure DeploymentTarget where
  environment : Environment
  kubernetes_execution_id : String
deriving DecidableEq, Repr

/-- `ProgressScope` (io_models.rs), as built by `Service::progress_scope`. -/
inductive ProgressScope
  | Application (id : String)
  | Database (id : String)
  | Router (id : String)
deriving DecidableEq, Repr

/-- `ProgressLevel` (io_models.rs). -/
inductive ProgressLevel
  | Info
  | Error
  | Debug
deriving DecidableEq, Repr

/-- `ProgressInfo` (io_models.rs): scope, level, optional message, execution id. -/
structure ProgressInfo where
  scope : ProgressScope
  level : ProgressLevel
  message : Option String
  execution_id : String
deriving DecidableEq, Repr

/-- `LabelsContent` (cmd/structs.rs): a named label attached to a namespace. -/
structure LabelsContent where
  name : String
  value : String
deriving DecidableEq, Repr

/-- `KubernetesPodStatusPhase` (cmd/structs.rs), as matched by
`delete_pending_service`. -/
inductive KubernetesPodStatusPhase
  | Pending
  | Running
  | Succeeded
  | Failed
  | Unknown
deriving DecidableEq, Repr

structure KubernetesPodMetadata where
  name : String
  namespace' : String
deriving DecidableEq, Repr

/-- Pod condition as read by `get_stateless_resource_information_for_user`. -/
structure KubernetesPodCondition where
  status : String
  typee : String
  reason : String
  message : Option String
deriving DecidableEq, Repr

structure ContainerStatusTerminated where
  message : Option String
  exit_code : Int
deriving DecidableEq, Repr

structure ContainerStatusWaiting where
  message : Option String
deriving DecidableEq, Repr

structure ContainerStatusLastState where
  terminated : Option ContainerStatusTerminated
  waiting : Option ContainerStatusWaiting
deriving DecidableEq, Repr

structure KubernetesPodContainerStatus where
  last_state : Option ContainerStatusLastState
deriving DecidableEq, Repr

structure KubernetesPodStatus where
  phase : KubernetesPodStatusPhase
  conditions : List KubernetesPodCondition
  container_statuses : Option (List KubernetesPodContainerStatus)
deriving DecidableEq, Repr

structure KubernetesPod where
  metadata : KubernetesPodMetadata
  status : KubernetesPodStatus
deriving DecidableEq, Repr

/-- Pod list as returned by `kubectl_exec_get_pods` (cmd/structs.rs). -/
structure KubernetesPodsList where
  items : List KubernetesPod
deriving DecidableEq, Repr

/-- Cluster event as read by `get_stateless_resource_information_for_user`. -/
structure KubernetesEvent where
  type_ : String
  message : Option String
  reason : String
  last_timestamp : Option String
deriving DecidableEq, Repr

structure KubernetesEventsList where
  items : List KubernetesEvent
deriving DecidableEq, Repr

/-- `ScalingKind` (cmd/kubectl.rs). -/
inductive ScalingKind
  | Deployment
  | Statefulset
deriving DecidableEq, Repr

/-- Template-rendering context. The concrete tera context is an external
collaborator value; no embedded operation inspects it. -/
structure TeraContext where
deriving DecidableEq, Repr

/-- Typed engine errors produced by service.rs. Modelled from the spec:
`errors.rs` is not in `src/`; each constructor mirrors the `EngineError::new_*`
builder invoked in service.rs, keeping the event context and the data the
builder receives at the call sites. -/
inductive EngineError
  | cannotCopyFilesFromOneDirectoryToAnother (details : EventDetails) (src dst : String)
      (err : CommandError)
  | k8sCreateNamespace (details : EventDetails) (ns : String) (err : CommandError)
  | helmError (details : EventDetails) (err : HelmError)
  | k8sPodNotReady (details : EventDetails) (selector ns : String) (err : CommandError)
  | k8sServiceIssue (details : EventDetails) (err : CommandError)
  | databaseFailedToStartAfterSeveralRetries (details : EventDetails)
      (name serviceType : String) (err : Option CommandError)
  | terraformErrorWhileExecutingPipeline (details : EventDetails) (err : CommandError)
  | terraformErrorWhileExecutingDestroyPipeline (details : EventDetails) (err : CommandError)
  | k8sScaleReplicas (details : EventDetails) (selector ns : String) (count : Nat)
      (err : CommandError)
  | versionNumberParsingError (details : EventDetails) (version : String) (err : CommandError)
  | unsupportedVersionError (details : EventDetails) (serviceType version : String)
  | k8sGetLogsError (details : EventDetails) (selector ns : String) (err : CommandError)
  | k8sCannotGetPods (details : EventDetails) (err : CommandError)
  | k8sGetJsonEvents (details : EventDetails) (ns : String) (err : CommandError)
  | kubeconfigResolution (err : CommandError)
deriving DecidableEq, Repr

/-- Modelled from the spec: `EngineError::underlying_error` (errors.rs, not in
`src/`) exposes "the underlying collaborator error (command output or parse
diagnostic) when available" (spec section 4.6). -/
def EngineError.underlyingError : EngineError → Option CommandError
  | .cannotCopyFilesFromOneDirectoryToAnother _ _ _ e => some e
  | .k8sCreateNamespace _ _ e => some e
  | .helmError _ e => some ⟨e.message⟩
  | .k8sPodNotReady _ _ _ e => some e
  | .k8sServiceIssue _ e => some e
  | .databaseFailedToStartAfterSeveralRetries _ _ _ e => e
  | .terraformErrorWhileExecutingPipeline _ e => some e
  | .terraformErrorWhileExecutingDestroyPipeline _ e => some e
  | .k8sScaleReplicas _ _ _ _ e => some e
  | .versionNumberParsingError _ _ e => some e
  | .unsupportedVersionError _ _ _ => none
  | .k8sGetLogsError _ _ _ e => some e
  | .k8sCannotGetPods _ e => some e
  | .k8sGetJsonEvents _ _ e => some e
  | .kubeconfigResolution e => some e

/-- `helm::to_engine_error` (cmd/helm.rs, not in `src/`): wraps a chart-manager
failure into the typed helm engine error with the event context. -/
def helm_to_engine_error (details : EventDetails) (e : HelmError) : EngineError :=
  EngineError.helmError details e

/-- The capability-based service description (the `Service` trait of service.rs
plus the capability traits `Helm`, `Terraform`, `StatefulService` and the
`Create`/`Pause`/`Delete` handlers). The Rust side is trait polymorphism with
generic functions over capability sets; the embedding merges the accessors of
all capabilities into one record (outcome fields stand for the concrete
handlers' results). Resource-sizing accessors (`total_cpus`, ...) are elided:
no embedded operation reads them (they feed only the external tera context). -/
structure Service where
  context : Context
  service_type : ServiceType
  id : String
  long_id : String
  name : String
  sanitized_name : String
  version : String
  action : Action
  private_port : Option Nat
  publicly_accessible : Bool
  selector : Option String
  helm_release_name : String
  helm_chart_dir : String
  helm_chart_values_dir : String
  helm_chart_external_name_service_dir : String
  terraform_common_resource_dir_path : String
  terraform_resource_dir_path : String
  is_managed_service : Bool
  on_create : Except EngineError Unit
  on_pause : Except EngineError Unit
  on_delete : Except EngineError Unit
  on_create_check : Except EngineError Unit
  on_pause_check : Except EngineError Unit
  on_delete_check : Except EngineError Unit

/-- Modelled from the spec: `crate::fs::workspace_directory` is not in `src/`;
workspace directories are "named deterministically from workspace root,
execution id, service-type category, and service name" (spec section 6). -/
def fsWorkspaceDirectory (root execution_id sub : String) : String :=
  root ++ "/.qovery-workspace/" ++ execution_id ++ "/" ++ sub

/-- `Service::workspace_directory` (service.rs lines 52-65). -/
def Service.workspace_directory (s : Service) : String :=
  let dir_root :=
    match s.service_type with
    | ServiceType.Application => "applications"
    | ServiceType.Database _ => "databases"
    | ServiceType.Router => "routers"
  fsWorkspaceDirectory s.context.workspace_root_dir s.context.execution_id
    (dir_root ++ "/" ++ s.name)

/-- `Service::name_with_id` (service.rs lines 46-48). -/
def Service.name_with_id (s : Service) : String :=
  s.name ++ " (" ++ s.id ++ ")"

/-- `Service::name_with_id_and_version` (service.rs lines 49-51). -/
def Service.name_with_id_and_version (s : Service) : String :=
  s.name ++ " (" ++ s.id ++ ") version: " ++ s.version

/-- `Service::get_event_details` (service.rs lines 66-77). -/
def Service.get_event_details (s : Service) (stage : Stage) : EventDetails :=
  ⟨s.context.organization_id, s.context.cluster_id, s.context.execution_id, stage⟩

/-- `Service::fqdn` (service.rs lines 88-96). -/
def Service.fqdn (s : Service) (target : DeploymentTarget) (fqdn : String)
    (is_managed : Bool) : String :=
  match s.publicly_accessible with
  | true => fqdn
  | false =>
    match is_managed with
    | true => s.id ++ "-dns." ++ target.environment.namespace' ++ ".svc.cluster.local"
    | false => s.sanitized_name ++ "." ++ target.environment.namespace' ++ ".svc.cluster.local"

/-- `Service::progress_scope` (service.rs lines 118-126). -/
def Service.progress_scope (s : Service) : ProgressScope :=
  match s.service_type with
  | ServiceType.Application => ProgressScope.Application s.id
  | ServiceType.Database _ => ProgressScope.Database s.id
  | ServiceType.Router => ProgressScope.Router s.id

/-- `get_tfstate_suffix` (service.rs lines 1451-1453). -/
def get_tfstate_suffix (s : Service) : String :=
  s.id

/-- `get_tfstate_name` (service.rs lines 1458-1460). -/
def get_tfstate_name (s : Service) : String :=
  "tfstate-default-" ++ s.id

/-- `ChartInfo` and its constructors. Modelled from the spec:
`cloud_provider/helm.rs` is not in `src/`. The constructor argument list mirrors
the call sites in service.rs (name, chart path, custom namespace, timeout in
seconds, value-override files, stderr-parsing flag, release selector); the
atomic rollback-on-failure flag is enabled by default, per spec section 4.3 and
the source comment in `deploy_stateless_service_error` (lines 486-487). -/
structure ChartInfo where
  name : String
  path : String
  custom_namespace : String
  timeout_in_seconds : Int
  values_files : List String
  parse_stderr_for_error : Bool
  k8s_selector : Option String
  atomic : Bool
deriving DecidableEq, Repr

def ChartInfo.new_from_custom_namespace (name path custom_namespace : String)
    (timeout_in_seconds : Int) (values_files : List String)
    (parse_stderr_for_error : Bool) (k8s_selector : Option String) : ChartInfo :=
  ⟨name, path, custom_namespace, timeout_in_seconds, values_files,
    parse_stderr_for_error, k8s_selector, true⟩

/-- Modelled from the spec: uninstall needs only "the release name in the target
namespace" (spec section 4.3); the remaining fields take the defaults. -/
def ChartInfo.new_from_release_name (name custom_namespace : String) : ChartInfo :=
  ⟨name, "", custom_namespace, 600, [], false, none, true⟩

/-- One collaborator call (or emitted log / listener event) issued by an
embedded operation, recorded in order of execution. -/
inductive Op
  | templateCopy (src dst : String)
  | getKubeconfig
  | createNamespace (ns : String) (labels : Option (List LabelsContent))
  | helmUpgrade (chart : ChartInfo)
  | helmUninstall (chart : ChartInfo)
  | getPods (ns selector : String)
  | deletePod (ns name : String)
  | podReadyPoll (ns selector : String)
  | terraformInitValidatePlanApply (dir : String) (dry_run : Bool)
  | terraformInitValidateDestroy (dir : String) (force : Bool)
  | deleteSecret (ns name : String)
  | scaleReplicas (ns selector : String) (kind : ScalingKind) (count : Nat)
  | getLogs (ns selector : String)
  | getEvents (ns : String)
  | logInfo (details : EventDetails) (msg : String)
  | logError (err : EngineError) (msg : Option String)
  | logDebug (details : EventDetails) (msg : String)
  | listenerDeploymentInProgress (info : ProgressInfo)
  | listenerDeploymentError (info : ProgressInfo)
  | listenerPauseInProgress (info : ProgressInfo)
  | listenerPauseError (info : ProgressInfo)
  | listenerDeleteInProgress (info : ProgressInfo)
  | listenerDeleteError (info : ProgressInfo)
deriving DecidableEq, Repr

/-- Outcomes of the external collaborator calls: one field per collaborator
operation reachable from service.rs. Stateful external behaviour is abstracted
into the outcome each call would produce when issued. -/
structure World where
  teraContext : Except EngineError TeraContext
  templateCopy : String → String → Except CommandError Unit
  kubeconfig : Except EngineError String
  createNamespace : Except CommandError Unit
  helmNew : Except HelmError Unit
  helmUpgrade : ChartInfo → Except HelmError Unit
  helmUninstall : ChartInfo → Except HelmError Unit
  getPods : Except CommandError KubernetesPodsList
  deletePod : String → String → Except CommandError Unit
  isPodReadyAttempts : List (Except CommandError (Option Bool))
  terraformInitValidatePlanApply : Except CommandError Unit
  terraformInitValidateDestroy : Except CommandError Unit
  deleteSecret : Except CommandError Unit
  scaleReplicas : Except CommandError Unit
  getLogs : Except CommandError (List String)
  getJsonEvents : Except CommandError KubernetesEventsList

/-- Modelled from the spec: `kubectl_exec_is_pod_ready_with_retry`
(cmd/kubectl.rs, not in `src/`). "Poll pod readiness for the selector with
bounded retry; success requires at least one ready pod before the call returns.
Exhausting retries yields a typed error carrying the last observed error, if
any" (spec sections 4.3 and 8). Each list element is the outcome of one poll
attempt within the retry budget; the accumulator keeps the last observed error
so that exhausting the budget reports it. -/
def isPodReadyRetryAux :
    CommandError → List (Except CommandError (Option Bool)) →
      Except CommandError (Option Bool)
  | last, [] => Except.error last
  | last, attempt :: rest =>
    match attempt with
    | .ok (some true) => .ok (some true)
    | .ok _ => isPodReadyRetryAux last rest
    | .error e => isPodReadyRetryAux e rest

/-- Modelled from the spec: entry point of the bounded readiness poll; the
default message stands for the "not ready after retries" diagnostic used when
no poll attempt produced an error of its own. -/
def kubectl_exec_is_pod_ready_with_retry
    (attempts : List (Except CommandError (Option Bool))) :
    Except CommandError (Option Bool) :=
  isPodReadyRetryAux (CommandError.mk "pod is not ready after retries") attempts

/-- Inner loop of `delete_pending_service` (service.rs lines 1474-1487): force
delete every pod whose status phase is `Pending`; a deletion failure aborts the
sweep with a k8s service issue error. -/
def deletePendingPodsLoop (w : World) (event_details : EventDetails) :
    List KubernetesPod → List Op × Except EngineError Unit
  | [] => ([], Except.ok ())
  | pod :: rest =>
    if pod.status.phase = KubernetesPodStatusPhase.Pending then
      match w.deletePod pod.metadata.namespace' pod.metadata.name with
      | .error e =>
        ([Op.deletePod pod.metadata.namespace' pod.metadata.name],
          .error (EngineError.k8sServiceIssue event_details e))
      | .ok _ =>
        let rec_result := deletePendingPodsLoop w event_details rest
        (Op.deletePod pod.metadata.namespace' pod.metadata.name :: rec_result.1,
          rec_result.2)
    else
      deletePendingPodsLoop w event_details rest

/-- `delete_pending_service` (service.rs lines 1462-1491): fetch the pods
matching the selector and delete the pending ones. -/
def delete_pending_service (w : World) (namespace' selector : String)
    (event_details : EventDetails) : List Op × Except EngineError Unit :=
  match w.getPods with
  | .ok pods =>
    let loop := deletePendingPodsLoop w event_details pods.items
    (Op.getPods namespace' selector :: loop.1, loop.2)
  | .error e =>
    ([Op.getPods namespace' selector], .error (EngineError.k8sServiceIssue event_details e))

/-- `deploy_stateless_service` (service.rs lines 386-479): render the chart
into the workspace, ensure the namespace (with optional TTL label), run the
atomic helm upgrade, sweep pending pods, then require a ready pod. -/
def deploy_stateless_service (w : World) (target : DeploymentTarget)
    (service : Service) : List Op × Except EngineError Unit :=
  let environment := target.environment
  let workspace_dir := service.workspace_directory
  match w.teraContext with
  | .error e => ([], .error e)
  | .ok _tera_context =>
    let event_details := service.get_event_details (Stage.Environment EnvironmentStep.Deploy)
    match w.templateCopy service.helm_chart_dir workspace_dir with
    | .error e =>
      ([Op.templateCopy service.helm_chart_dir workspace_dir],
        .error (EngineError.cannotCopyFilesFromOneDirectoryToAnother event_details
          service.helm_chart_dir workspace_dir e))
    | .ok _ =>
      let ops1 := [Op.templateCopy service.helm_chart_dir workspace_dir]
      let helm_release_name := service.helm_release_name
      match w.kubeconfig with
      | .error e => (ops1 ++ [Op.getKubeconfig], .error e)
      | .ok _kubernetes_config_file_path =>
        let ops2 := ops1 ++ [Op.getKubeconfig]
        let namespace_labels := service.context.resource_expiration_in_seconds.map
          (fun ttl => [LabelsContent.mk "ttl" (toString ttl)])
        match w.createNamespace with
        | .error e =>
          (ops2 ++ [Op.createNamespace environment.namespace' namespace_labels],
            .error (EngineError.k8sCreateNamespace event_details environment.namespace' e))
        | .ok _ =>
          let ops3 := ops2 ++ [Op.createNamespace environment.namespace' namespace_labels]
          match w.helmNew with
          | .error e => (ops3, .error (helm_to_engine_error event_details e))
          | .ok _ =>
            let chart := ChartInfo.new_from_custom_namespace helm_release_name
              workspace_dir environment.namespace' 600
              (match service.service_type with
               | ServiceType.Database _ => [workspace_dir ++ "/q-values.yaml"]
               | _ => [])
              false service.selector
            match w.helmUpgrade chart with
            | .error e =>
              (ops3 ++ [Op.helmUpgrade chart], .error (helm_to_engine_error event_details e))
            | .ok _ =>
              let ops4 := ops3 ++ [Op.helmUpgrade chart]
              let pending := delete_pending_service w environment.namespace'
                (service.selector.getD "") event_details
              match pending.2 with
              | .error e => (ops4 ++ pending.1, .error e)
              | .ok _ =>
                let ops5 := ops4 ++ pending.1 ++
                  [Op.podReadyPoll environment.namespace' (service.selector.getD "")]
                match kubectl_exec_is_pod_ready_with_retry w.isPodReadyAttempts with
                | .error e =>
                  (ops5, .error (EngineError.k8sPodNotReady event_details
                    (service.selector.getD "") environment.namespace' e))
                | .ok _ => (ops5, .ok ())

/-- `deploy_stateless_service_error` (service.rs lines 482-489): nothing to do,
the atomic flag on the chart release makes the chart manager roll back. -/
def deploy_stateless_service_error (_target : DeploymentTarget) (_service : Service) :
    Except EngineError Unit :=
  Except.ok ()

/-- `deploy_stateful_service` (service.rs lines 574-760): managed services go
through the provisioner pipeline (render three template sets, then
init-validate-plan-apply); non-managed services go through the chart release
path with the per-database value overlay and the ready-pod gate. -/
def deploy_stateful_service (w : World) (target : DeploymentTarget)
    (service : Service) (event_details : EventDetails) :
    List Op × Except EngineError Unit :=
  let workspace_dir := service.workspace_directory
  let environment := target.environment
  if service.is_managed_service then
    let ops0 := [Op.logInfo event_details
      ("Deploying managed " ++ service.service_type.name ++ " `" ++
        service.name_with_id ++ "`")]
    match w.teraContext with
    | .error e => (ops0, .error e)
    | .ok _context =>
      match w.templateCopy service.terraform_common_resource_dir_path workspace_dir with
      | .error e =>
        (ops0 ++ [Op.templateCopy service.terraform_common_resource_dir_path workspace_dir],
          .error (EngineError.cannotCopyFilesFromOneDirectoryToAnother event_details
            service.terraform_common_resource_dir_path workspace_dir e))
      | .ok _ =>
        let ops1 := ops0 ++
          [Op.templateCopy service.terraform_common_resource_dir_path workspace_dir]
        match w.templateCopy service.terraform_resource_dir_path workspace_dir with
        | .error e =>
          (ops1 ++ [Op.templateCopy service.terraform_resource_dir_path workspace_dir],
            .error (EngineError.cannotCopyFilesFromOneDirectoryToAnother event_details
              service.terraform_resource_dir_path workspace_dir e))
        | .ok _ =>
          let ops2 := ops1 ++
            [Op.templateCopy service.terraform_resource_dir_path workspace_dir]
          let external_svc_dir := workspace_dir ++ "/" ++ "external-name-svc"
          match w.templateCopy service.helm_chart_external_name_service_dir external_svc_dir with
          | .error e =>
            (ops2 ++ [Op.templateCopy service.helm_chart_external_name_service_dir external_svc_dir],
              .error (EngineError.cannotCopyFilesFromOneDirectoryToAnother event_details
                service.helm_chart_external_name_service_dir external_svc_dir e))
          | .ok _ =>
            let ops3 := ops2 ++
              [Op.templateCopy service.helm_chart_external_name_service_dir external_svc_dir]
            let ops4 := ops3 ++ [Op.terraformInitValidatePlanApply workspace_dir
              service.context.is_dry_run_deploy]
            match w.terraformInitValidatePlanApply with
            | .error e =>
              (ops4, .error (EngineError.terraformErrorWhileExecutingPipeline event_details e))
            | .ok _ => (ops4, .ok ())
  else
    let ops0 := [Op.logInfo event_details
      ("Deploying containerized " ++ service.service_type.name ++ " `" ++
        service.name_with_id ++ "` on Kubernetes cluster")]
    match w.teraContext with
    | .error e => (ops0, .error e)
    | .ok _context =>
      match w.kubeconfig with
      | .error e => (ops0 ++ [Op.getKubeconfig], .error e)
      | .ok _kubernetes_config_file_path =>
        let ops1 := ops0 ++ [Op.getKubeconfig]
        match w.templateCopy service.helm_chart_dir workspace_dir with
        | .error e =>
          (ops1 ++ [Op.templateCopy service.helm_chart_dir workspace_dir],
            .error (EngineError.cannotCopyFilesFromOneDirectoryToAnother event_details
              service.helm_chart_dir workspace_dir e))
        | .ok _ =>
          let ops2 := ops1 ++ [Op.templateCopy service.helm_chart_dir workspace_dir]
          match w.templateCopy service.helm_chart_values_dir workspace_dir with
          | .error e =>
            (ops2 ++ [Op.templateCopy service.helm_chart_values_dir workspace_dir],
              .error (EngineError.cannotCopyFilesFromOneDirectoryToAnother event_details
                service.helm_chart_values_dir workspace_dir e))
          | .ok _ =>
            let ops3 := ops2 ++ [Op.templateCopy service.helm_chart_values_dir workspace_dir]
            let namespace_labels := service.context.resource_expiration_in_seconds.map
              (fun ttl => [LabelsContent.mk "ttl" (toString ttl)])
            match w.createNamespace with
            | .error e =>
              (ops3 ++ [Op.createNamespace environment.namespace' namespace_labels],
                .error (EngineError.k8sCreateNamespace event_details environment.namespace' e))
            | .ok _ =>
              let ops4 := ops3 ++ [Op.createNamespace environment.namespace' namespace_labels]
              match w.helmNew with
              | .error e => (ops4, .error (helm_to_engine_error event_details e))
              | .ok _ =>
                let chart := ChartInfo.new_from_custom_namespace service.helm_release_name
                  workspace_dir environment.namespace' 600
                  (match service.service_type with
                   | ServiceType.Database _ => [workspace_dir ++ "/q-values.yaml"]
                   | _ => [])
                  false service.selector
                match w.helmUpgrade chart with
                | .error e =>
                  (ops4 ++ [Op.helmUpgrade chart],
                    .error (helm_to_engine_error event_details e))
                | .ok _ =>
                  let ops5 := ops4 ++ [Op.helmUpgrade chart]
                  let pending := delete_pending_service w environment.namespace'
                    (service.selector.getD "") event_details
                  match pending.2 with
                  | .error e => (ops5 ++ pending.1, .error e)
                  | .ok _ =>
                    let ops6 := ops5 ++ pending.1 ++
                      [Op.podReadyPoll environment.namespace' (service.selector.getD "")]
                    match kubectl_exec_is_pod_ready_with_retry w.isPodReadyAttempts with
                    | .ok (some true) => (ops6, .ok ())
                    | .ok (some false) =>
                      (ops6, .error (EngineError.databaseFailedToStartAfterSeveralRetries
                        event_details service.name_with_id service.service_type.name none))
                    | .ok none =>
                      (ops6, .error (EngineError.databaseFailedToStartAfterSeveralRetries
                        event_details service.name_with_id service.service_type.name none))
                    | .error e =>
                      (ops6, .error (EngineError.databaseFailedToStartAfterSeveralRetries
                        event_details service.name_with_id service.service_type.name (some e)))

/-- `delete_terraform_tfstate_secret` (service.rs lines 970-986): resolve the
kubeconfig, then delete the remote-state secret, discarding the deletion
outcome (`let _ = kubectl_exec_delete_secret(..)`). -/
def delete_terraform_tfstate_secret (w : World) (namespace' secret_name : String) :
    List Op × Except EngineError Unit :=
  match w.kubeconfig with
  | .error e => ([Op.getKubeconfig], .error e)
  | .ok _config_file_path =>
    let _ := w.deleteSecret
    ([Op.getKubeconfig, Op.deleteSecret namespace' secret_name], .ok ())

/-- `helm_uninstall_release` (service.rs lines 1227-1244). -/
def helm_uninstall_release (w : World) (environment : Environment)
    (helm_release_name : String) (event_details : EventDetails) :
    List Op × Except EngineError Unit :=
  match w.kubeconfig with
  | .error e => ([Op.getKubeconfig], .error e)
  | .ok _ =>
    match w.helmNew with
    | .error e => ([Op.getKubeconfig], .error (EngineError.helmError event_details e))
    | .ok _ =>
      let chart := ChartInfo.new_from_release_name helm_release_name environment.namespace'
      match w.helmUninstall chart with
      | .error e =>
        ([Op.getKubeconfig, Op.helmUninstall chart],
          .error (EngineError.helmError event_details e))
      | .ok _ => ([Op.getKubeconfig, Op.helmUninstall chart], .ok ())

/-- `delete_stateless_service` (service.rs lines 556-572). -/
def delete_stateless_service (w : World) (target : DeploymentTarget)
    (service : Service) (event_details : EventDetails) :
    List Op × Except EngineError Unit :=
  let uninstall := helm_uninstall_release w target.environment
    service.helm_release_name event_details
  match uninstall.2 with
  | .error e => (uninstall.1, .error e)
  | .ok _ => (uninstall.1, .ok ())

/-- `delete_stateful_service` (service.rs lines 762-855): managed services
re-render the three template sets and run the destroy pipeline, then
best-effort delete the tfstate secret; non-managed services fall back to the
chart uninstall path. -/
def delete_stateful_service (w : World) (target : DeploymentTarget)
    (service : Service) (event_details : EventDetails) :
    List Op × Except EngineError Unit :=
  let environment := target.environment
  if service.is_managed_service then
    let workspace_dir := service.workspace_directory
    match w.teraContext with
    | .error e => ([], .error e)
    | .ok _tera_context =>
      match w.templateCopy service.terraform_common_resource_dir_path workspace_dir with
      | .error e =>
        ([Op.templateCopy service.terraform_common_resource_dir_path workspace_dir],
          .error (EngineError.cannotCopyFilesFromOneDirectoryToAnother event_details
            service.terraform_common_resource_dir_path workspace_dir e))
      | .ok _ =>
        let ops1 := [Op.templateCopy service.terraform_common_resource_dir_path workspace_dir]
        match w.templateCopy service.terraform_resource_dir_path workspace_dir with
        | .error e =>
          (ops1 ++ [Op.templateCopy service.terraform_resource_dir_path workspace_dir],
            .error (EngineError.cannotCopyFilesFromOneDirectoryToAnother event_details
              service.terraform_resource_dir_path workspace_dir e))
        | .ok _ =>
          let ops2 := ops1 ++ [Op.templateCopy service.terraform_resource_dir_path workspace_dir]
          let external_svc_dir := workspace_dir ++ "/" ++ "external-name-svc"
          match w.templateCopy service.helm_chart_external_name_service_dir external_svc_dir with
          | .error e =>
            (ops2 ++ [Op.templateCopy service.helm_chart_external_name_service_dir external_svc_dir],
              .error (EngineError.cannotCopyFilesFromOneDirectoryToAnother event_details
                service.helm_chart_external_name_service_dir external_svc_dir e))
          | .ok _ =>
            let ops3 := ops2 ++
              [Op.templateCopy service.helm_chart_external_name_service_dir external_svc_dir]
            match w.templateCopy service.helm_chart_external_name_service_dir workspace_dir with
            | .error e =>
              (ops3 ++ [Op.templateCopy service.helm_chart_external_name_service_dir workspace_dir],
                .error (EngineError.cannotCopyFilesFromOneDirectoryToAnother event_details
                  service.helm_chart_external_name_service_dir workspace_dir e))
            | .ok _ =>
              let ops4 := ops3 ++
                [Op.templateCopy service.helm_chart_external_name_service_dir workspace_dir] ++
                [Op.terraformInitValidateDestroy workspace_dir true]
              match w.terraformInitValidateDestroy with
              | .ok _ =>
                let tfstate := delete_terraform_tfstate_secret w environment.namespace'
                  (get_tfstate_name service)
                (ops4 ++
                  [Op.logInfo event_details "Deleting secret containing tfstates"] ++
                  tfstate.1, .ok ())
              | .error e =>
                let engine_err :=
                  EngineError.terraformErrorWhileExecutingDestroyPipeline event_details e
                (ops4 ++ [Op.logError engine_err none], .error engine_err)
  else
    let uninstall := helm_uninstall_release w environment
      service.helm_release_name event_details
    match uninstall.2 with
    | .error e => (uninstall.1, .error e)
    | .ok _ => (uninstall.1, .ok ())

/-- `scale_down_database` (service.rs lines 491-524): a managed database is
paused by doing nothing; otherwise scale the statefulset matching
`databaseId=<id>` to the requested replica count. -/
def scale_down_database (w : World) (target : DeploymentTarget) (service : Service)
    (replicas_count : Nat) : List Op × Except EngineError Unit :=
  if service.is_managed_service then
    ([], .ok ())
  else
    let event_details := service.get_event_details (Stage.Environment EnvironmentStep.ScaleDown)
    let environment := target.environment
    match w.kubeconfig with
    | .error e => ([Op.getKubeconfig], .error e)
    | .ok _ =>
      let selector := "databaseId=" ++ service.id
      let ops := [Op.getKubeconfig,
        Op.scaleReplicas environment.namespace' selector ScalingKind.Statefulset replicas_count]
      match w.scaleReplicas with
      | .error e =>
        (ops, .error (EngineError.k8sScaleReplicas event_details selector
          environment.namespace' replicas_count e))
      | .ok _ => (ops, .ok ())

/-- Semantic version value. Modelled from the spec: `VersionsNumber` lives in
`models/types.rs` which is not in `src/`; only construction by parsing and
equality are observed here, so the parsed form is kept opaque. -/
structure VersionsNumber where
  raw : String
deriving DecidableEq, Repr

/-- `ServiceVersionCheckResult` (service.rs lines 857-883). -/
structure ServiceVersionCheckResult where
  requested_version : VersionsNumber
  matched_version : VersionsNumber
  message : Option String
deriving DecidableEq, Repr

/-- `check_service_version` (service.rs lines 885-968): `from_str` is
`VersionsNumber::from_str` (models/types.rs, an external parsing collaborator)
and `result` is the version-resolution outcome handed in by the caller. -/
def check_service_version (from_str : String → Except CommandError VersionsNumber)
    (result : Except CommandError String) (service : Service)
    (event_details : EventDetails) :
    List Op × Except EngineError ServiceVersionCheckResult :=
  match result with
  | .ok version =>
    if service.version ≠ version then
      let message := service.service_type.name ++ " version `" ++ service.version ++
        "` has been requested by the user; but matching version is `" ++ version ++ "`"
      let ops := [Op.logInfo event_details message,
        Op.listenerDeploymentInProgress
          ⟨service.progress_scope, ProgressLevel.Info, some message,
            service.context.execution_id⟩]
      match from_str service.version with
      | .error e =>
        (ops, .error (EngineError.versionNumberParsingError event_details service.version e))
      | .ok requested =>
        match from_str version with
        | .error e =>
          (ops, .error (EngineError.versionNumberParsingError event_details version e))
        | .ok matched => (ops, .ok ⟨requested, matched, some message⟩)
    else
      match from_str service.version with
      | .error e =>
        ([], .error (EngineError.versionNumberParsingError event_details service.version e))
      | .ok requested =>
        match from_str version with
        | .error e =>
          ([], .error (EngineError.versionNumberParsingError event_details version e))
        | .ok matched => ([], .ok ⟨requested, matched, none⟩)
  | .error _err =>
    let message := service.service_type.name ++ " version " ++ service.version ++
      " is not supported!"
    let error := EngineError.unsupportedVersionError event_details
      service.service_type.name service.version
    ([Op.listenerDeploymentError
        ⟨service.progress_scope, ProgressLevel.Error, some message,
          service.context.execution_id⟩,
      Op.logError error none],
      .error error)

/-- The lifecycle handlers a dispatch can invoke; the trace a dispatch returns
records which handlers were called. -/
inductive Handler
  | onCreate
  | onPause
  | onDelete
  | onCreateCheck
  | onPauseCheck
  | onDeleteCheck
deriving DecidableEq, Repr

namespace StatelessService

/-- `StatelessService::exec_action` (service.rs lines 131-138). -/
def exec_action (service : Service) (_deployment_target : DeploymentTarget) :
    List Handler × Except EngineError Unit :=
  match service.action with
  | Action.Create => ([Handler.onCreate], service.on_create)
  | Action.Delete => ([Handler.onDelete], service.on_delete)
  | Action.Pause => ([Handler.onPause], service.on_pause)
  | Action.Nothing => ([], Except.ok ())

/-- `StatelessService::exec_check_action` (service.rs lines 140-147). -/
def exec_check_action (service : Service) : List Handler × Except EngineError Unit :=
  match service.action with
  | Action.Create => ([Handler.onCreateCheck], service.on_create_check)
  | Action.Delete => ([Handler.onDeleteCheck], service.on_delete_check)
  | Action.Pause => ([Handler.onPauseCheck], service.on_pause_check)
  | Action.Nothing => ([], Except.ok ())

end StatelessService

namespace StatefulService

/-- `StatefulService::exec_action` (service.rs lines 152-159); textually the
same dispatch as the stateless one. -/
def exec_action (service : Service) (_deployment_target : DeploymentTarget) :
    List Handler × Except EngineError Unit :=
  match service.action with
  | Action.Create => ([Handler.onCreate], service.on_create)
  | Action.Delete => ([Handler.onDelete], service.on_delete)
  | Action.Pause => ([Handler.onPause], service.on_pause)
  | Action.Nothing => ([], Except.ok ())

/-- `StatefulService::exec_check_action` (service.rs lines 161-168). -/
def exec_check_action (service : Service) : List Handler × Except EngineError Unit :=
  match service.action with
  | Action.Create => ([Handler.onCreateCheck], service.on_create_check)
  | Action.Delete => ([Handler.onDeleteCheck], service.on_delete_check)
  | Action.Pause => ([Handler.onPauseCheck], service.on_pause_check)
  | Action.Nothing => ([], Except.ok ())

end StatefulService

/-- Pod-condition diagnostics of `get_stateless_resource_information_for_user`
(service.rs lines 1172-1181). The Rust `{:?}` quoting of the reason string is
rendered plainly; only line presence matters downstream. -/
def conditionLines : List KubernetesPodCondition → List String
  | [] => []
  | c :: rest =>
    (if c.status.toLower = "false" then
      ["Condition not met to start the container: " ++ c.typee ++ " -> " ++
        c.reason ++ ": " ++ c.message.getD ""]
     else []) ++ conditionLines rest

/-- Last-state diagnostics of one container status (service.rs lines 1183-1197). -/
def lastStateLines (ls : ContainerStatusLastState) : List String :=
  (match ls.terminated with
   | some t =>
     (match t.message with
      | some m => ["terminated state message: " ++ m]
      | none => []) ++
     ["terminated state exit code: " ++ toString t.exit_code]
   | none => []) ++
  (match ls.waiting with
   | some wa =>
     match wa.message with
     | some m => ["waiting state message: " ++ m]
     | none => []
   | none => [])

def containerStatusLines : List KubernetesPodContainerStatus → List String
  | [] => []
  | cs :: rest =>
    (match cs.last_state with
     | some ls => lastStateLines ls
     | none => []) ++ containerStatusLines rest

/-- Per-pod loop of `get_stateless_resource_information_for_user`
(service.rs lines 1171-1199). -/
def podsDebugLines : List KubernetesPod → List String
  | [] => []
  | pod :: rest =>
    conditionLines pod.status.conditions ++
    containerStatusLines (pod.status.container_statuses.getD []) ++
    podsDebugLines rest

/-- Non-normal cluster-event diagnostics (service.rs lines 1210-1222). -/
def eventLines : List KubernetesEvent → List String
  | [] => []
  | e :: rest =>
    (if e.type_.toLower ≠ "normal" then
      match e.message with
      | some m =>
        [e.last_timestamp.getD "" ++ " " ++ e.type_ ++ " " ++ e.reason ++ ": " ++ m]
      | none => []
     else []) ++ eventLines rest

/-- `get_stateless_resource_information_for_user` (service.rs lines 1130-1225):
collect container logs, pod condition/termination diagnostics, and non-normal
cluster events, failing on the first collaborator error. -/
def get_stateless_resource_information_for_user (w : World) (environment : Environment)
    (service : Service) (event_details : EventDetails) :
    List Op × Except EngineError (List String) :=
  let selector := service.selector.getD ""
  match w.kubeconfig with
  | .error e => ([Op.getKubeconfig], .error e)
  | .ok _kubernetes_config_file_path =>
    let ops1 := [Op.getKubeconfig, Op.getLogs environment.namespace' selector]
    match w.getLogs with
    | .error e =>
      (ops1, .error (EngineError.k8sGetLogsError event_details selector
        environment.namespace' e))
    | .ok logs =>
      let ops2 := ops1 ++ [Op.getPods environment.namespace' selector]
      match w.getPods with
      | .error e => (ops2, .error (EngineError.k8sCannotGetPods event_details e))
      | .ok pods =>
        let ops3 := ops2 ++ [Op.getEvents environment.namespace']
        match w.getJsonEvents with
        | .error e =>
          (ops3, .error (EngineError.k8sGetJsonEvents event_details
            environment.namespace' e))
        | .ok events =>
          (ops3, .ok (logs ++ podsDebugLines pods.items ++ eventLines events.items))

/-- Free function `debug_logs` (service.rs lines 312-338): return the gathered
diagnostic lines, or log the gathering failure and substitute the empty set. -/
def debug_logs (w : World) (environment : Environment) (service : Service)
    (event_details : EventDetails) : List Op × List String :=
  match get_stateless_resource_information_for_user w environment service event_details with
  | (ops, .ok lines) => (ops, lines)
  | (ops, .error err) =>
    (ops ++ [Op.logError err (some ("error while retrieving debug logs from " ++
      service.service_type.name ++ " " ++ service.name_with_id))], [])

/-- Rust `CheckAction` enum (service.rs lines 988-992). -/
inductive CheckAction
  | Deploy
  | Pause
  | Delete
deriving DecidableEq, Repr

/-- `check_kubernetes_service_error` (service.rs lines 994-1123): report the
in-progress event, and on failure emit the error event, gather best-effort
diagnostics (substituting `<no debug logs>` when empty), emit them at Debug
level, and return a k8s service issue derived from the original failure. -/
def check_kubernetes_service_error (w : World) (result : Except EngineError Unit)
    (service : Service) (event_details : EventDetails) (target : DeploymentTarget)
    (action_verb : String) (action : CheckAction) :
    List Op × Except EngineError Unit :=
  let message := action_verb ++ " " ++ service.service_type.name.toLower ++ " " ++
    service.name
  let progress_info : ProgressInfo :=
    ⟨service.progress_scope, ProgressLevel.Info, some message,
      target.kubernetes_execution_id⟩
  let ops0 :=
    match action with
    | CheckAction.Deploy =>
      [Op.listenerDeploymentInProgress progress_info, Op.logInfo event_details message]
    | CheckAction.Pause =>
      [Op.listenerPauseInProgress progress_info, Op.logInfo event_details message]
    | CheckAction.Delete =>
      [Op.listenerDeleteInProgress progress_info, Op.logInfo event_details message]
  match result with
  | .error err =>
    let progress_info_err : ProgressInfo :=
      ⟨service.progress_scope, ProgressLevel.Error,
        some (action_verb ++ " error " ++ service.service_type.name.toLower ++ " " ++
          service.name ++ " : error => " ++ reprStr err),
        target.kubernetes_execution_id⟩
    let ops1 := ops0 ++
      [Op.logError err (some (action_verb ++ " error with " ++
        service.service_type.name ++ " " ++ service.name ++ " , id: " ++ service.id))] ++
      [match action with
       | CheckAction.Deploy => Op.listenerDeploymentError progress_info_err
       | CheckAction.Pause => Op.listenerPauseError progress_info_err
       | CheckAction.Delete => Op.listenerDeleteError progress_info_err]
    let dbg := debug_logs w target.environment service event_details
    let debug_logs_string :=
      if dbg.2.isEmpty then "<no debug logs>" else String.intercalate "\n" dbg.2
    let progress_info_dbg : ProgressInfo :=
      ⟨service.progress_scope, ProgressLevel.Debug, some debug_logs_string,
        target.kubernetes_execution_id⟩
    let ops2 := ops1 ++ dbg.1 ++ [Op.logDebug event_details debug_logs_string] ++
      [match action with
       | CheckAction.Deploy => Op.listenerDeploymentError progress_info_dbg
       | CheckAction.Pause => Op.listenerPauseError progress_info_dbg
       | CheckAction.Delete => Op.listenerDeleteError progress_info_dbg]
    (ops2, .error (EngineError.k8sServiceIssue event_details
      (err.underlyingError.getD ⟨""⟩)))
  | .ok _ =>
    let progress_info_ok : ProgressInfo :=
      ⟨service.progress_scope, ProgressLevel.Info,
        some (action_verb ++ " succeeded for " ++
          service.service_type.name.toLower ++ " " ++ service.name),
        target.kubernetes_execution_id⟩
    (ops0 ++
      [match action with
       | CheckAction.Deploy => Op.listenerDeploymentInProgress progress_info_ok
       | CheckAction.Pause => Op.listenerPauseInProgress progress_info_ok
       | CheckAction.Delete => Op.listenerDeleteInProgress progress_info_ok],
      .ok ())

/-- Outcome of one channel poll by a background reporter: a received value
(`Ok(_)`), a timeout-or-empty poll (`Err(Timeout)` / `Err(Empty)`), or a
disconnected channel (`Err(Disconnected)`). -/
inductive RecvOutcome
  | value
  | timeout
  | disconnected
deriving DecidableEq, Repr

/-- Wait loop of the application progress reporter
(`send_progress_for_application`, service.rs lines 1338-1343): each iteration
blocks on `rx.recv_timeout(10s)`; `Err(Timeout)` continues with another status
report, while `Ok(_)` and `Err(Disconnected)` break. The argument lists the
successive outcomes the channel delivers; the result is the number of polls
until the loop breaks, `none` when every listed outcome lets it continue. -/
def appReporterWaitLoop : List RecvOutcome → Option Nat
  | [] => none
  | o :: rest =>
    match o with
    | RecvOutcome.timeout => (appReporterWaitLoop rest).map (· + 1)
    | RecvOutcome.value => some 1
    | RecvOutcome.disconnected => some 1

/-- Wait check of the generic task reporter
(`send_progress_on_long_task_with_message`, service.rs lines 1437-1441): after
emitting and sleeping, the loop calls `rx.try_recv()`; `Err(Empty)` continues,
while `Ok(_)` and `Err(Disconnected)` break. Same exit logic as the
application variant, polled at the end of each iteration. -/
def taskReporterWaitLoop : List RecvOutcome → Option Nat
  | [] => none
  | o :: rest =>
    match o with
    | RecvOutcome.timeout => (taskReporterWaitLoop rest).map (· + 1)
    | RecvOutcome.value => some 1
    | RecvOutcome.disconnected => some 1

deriving instance DecidableEq for Except

/-- A concrete execution context used to evaluate the embedded operations. -/
def sampleContext : Context :=
  ⟨"org", "clu", "exec-1", "/w", none, false⟩

/-- A concrete self-hosted (non-managed) database service. -/
def sampleDbService : Service :=
  ⟨sampleContext, ServiceType.Database DatabaseType.PostgreSQL, "zd1", "lid-1", "db",
    "db-s", "12", Action.Create, some 5432, false, some "databaseId=zd1", "rel",
    "/chart", "/values", "/ext", "/tfcommon", "/tf", false,
    Except.ok (), Except.ok (), Except.ok (), Except.ok (), Except.ok (), Except.ok ()⟩

/-- The same database, flagged as a managed cloud resource. -/
def sampleManagedService : Service :=
  { sampleDbService with is_managed_service := true }

def sampleTarget : DeploymentTarget :=
  ⟨⟨"env-123"⟩, "exec-1"⟩

def sampleEventDetails : EventDetails :=
  ⟨"org", "clu", "exec-1", Stage.Environment EnvironmentStep.Deploy⟩

/-- A world in which every collaborator call succeeds. -/
def sampleWorldOk : World :=
  ⟨Except.ok ⟨⟩,
    fun _ _ => Except.ok (),
    Except.ok "/kube/config",
    Except.ok (),
    Except.ok (),
    fun _ => Except.ok (),
    fun _ => Except.ok (),
    Except.ok ⟨[]⟩,
    fun _ _ => Except.ok (),
    [Except.ok (some true)],
    Except.ok (),
    Except.ok (),
    Except.ok (),
    Except.ok (),
    Except.ok [],
    Except.ok ⟨[]⟩⟩

/-- Same world, but the readiness poll never observes a ready pod within the
retry budget. -/
def sampleWorldNotReady : World :=
  { sampleWorldOk with
    isPodReadyAttempts :=
      [Except.ok (some false), Except.error ⟨"probe timed out"⟩] }

def samplePendingPod : KubernetesPod :=
  ⟨⟨"pod-a", "env-123"⟩, ⟨KubernetesPodStatusPhase.Pending, [], none⟩⟩

def sampleRunningPod : KubernetesPod :=
  ⟨⟨"pod-b", "env-123"⟩, ⟨KubernetesPodStatusPhase.Running, [], none⟩⟩

/-- Same world, but pod listing returns one pending and one running pod. -/
def sampleWorldPods : World :=
  { sampleWorldOk with getPods := Except.ok ⟨[samplePendingPod, sampleRunningPod]⟩ }

/-- Same world, but fetching container logs fails, so diagnostic gathering
fails. -/
def sampleWorldGatherFail : World :=
  { sampleWorldOk with getLogs := Except.error ⟨"logs unavailable"⟩ }

def sampleChart : ChartInfo :=
  ChartInfo.new_from_custom_namespace "rel" sampleDbService.workspace_directory "env-123"
    600 [sampleDbService.workspace_directory ++ "/q-values.yaml"] false
    (some "databaseId=zd1")

def sampleFromStr : String → Except CommandError VersionsNumber :=
  fun v => Except.ok ⟨v⟩

def sampleOpError : EngineError :=
  EngineError.helmError sampleEventDetails ⟨"helm failed"⟩

def sampleGatherError : EngineError :=
  EngineError.k8sGetLogsError sampleEventDetails "databaseId=zd1" "env-123"
    ⟨"logs unavailable"⟩

theorem deletePendingPodsLoop_ok (w : World) (evt : EventDetails)
    (hDel : ∀ a b, w.deletePod a b = Except.ok ()) :
    ∀ pods, (deletePendingPodsLoop w evt pods).2 = Except.ok () := by
  intro pods
  induction pods with
  | nil => rfl
  | cons pod rest ih =>
    unfold deletePendingPodsLoop
    by_cases h : pod.status.phase = KubernetesPodStatusPhase.Pending
    · simp [h, hDel, ih]
    · simp [h, ih]

theorem delete_pending_service_ok (w : World) (ns sel : String) (evt : EventDetails)
    (hPods : ∃ pl, w.getPods = Except.ok pl)
    (hDel : ∀ a b, w.deletePod a b = Except.ok ()) :
    (delete_pending_service w ns sel evt).2 = Except.ok () := by
  obtain ⟨pl, hpl⟩ := hPods
  unfold delete_pending_service
  simp [hpl, deletePendingPodsLoop_ok w evt hDel]

theorem deletePendingPodsLoop_no_helmUpgrade (w : World) (evt : EventDetails)
    (chart : ChartInfo) :
    ∀ pods, Op.helmUpgrade chart ∉ (deletePendingPodsLoop w evt pods).1 := by
  intro pods
  induction pods with
  | nil => simp [deletePendingPodsLoop]
  | cons pod rest ih =>
    unfold deletePendingPodsLoop
    by_cases h : pod.status.phase = KubernetesPodStatusPhase.Pending
    · cases hd : w.deletePod pod.metadata.namespace' pod.metadata.name <;>
        simp [h, hd, ih]
    · simp [h, ih]

theorem delete_pending_service_no_helmUpgrade (w : World) (ns sel : String)
    (evt : EventDetails) (chart : ChartInfo) :
    Op.helmUpgrade chart ∉ (delete_pending_service w ns sel evt).1 := by
  unfold delete_pending_service
  cases hg : w.getPods <;> simp [deletePendingPodsLoop_no_helmUpgrade]

theorem isPodReadyRetryAux_not_ready :
    ∀ (attempts : List (Except CommandError (Option Bool))) (last : CommandError),
      (∀ a ∈ attempts, a ≠ Except.ok (some true)) →
      ∃ e, isPodReadyRetryAux last attempts = Except.error e := by
  intro attempts
  induction attempts with
  | nil => exact fun last _ => ⟨last, rfl⟩
  | cons a rest ih =>
    intro last h
    have ha := h a (List.mem_cons_self a rest)
    have hrest : ∀ b ∈ rest, b ≠ Except.ok (some true) :=
      fun b hb => h b (List.mem_cons_of_mem a hb)
    cases a with
    | error e => simpa [isPodReadyRetryAux] using ih e hrest
    | ok v =>
      cases v with
      | none => simpa [isPodReadyRetryAux] using ih last hrest
      | some b =>
        cases b with
        | false => simpa [isPodReadyRetryAux] using ih last hrest
        | true => exact absurd rfl ha

theorem isPodReadyRetry_not_ready (attempts : List (Except CommandError (Option Bool)))
    (h : ∀ a ∈ attempts, a ≠ Except.ok (some true)) :
    ∃ e, kubectl_exec_is_pod_ready_with_retry attempts = Except.error e :=
  isPodReadyRetryAux_not_ready attempts _ h

/-- C1: for both release deployers, when every prior step succeeds, the chart
upgrade succeeds, and the bounded readiness poll never reports a ready pod
within its retry budget, the deploy call returns the typed failed-to-start
error (the stateful variant carrying the last observed probe error) and never
returns success. -/
theorem release_deploy_unready_returns_failed_to_start
    (w : World) (target : DeploymentTarget) (service : Service)
    (event_details : EventDetails)
    (hManaged : service.is_managed_service = false)
    (hTera : ∃ c, w.teraContext = Except.ok c)
    (hCopy : ∀ src dst, w.templateCopy src dst = Except.ok ())
    (hKube : ∃ p, w.kubeconfig = Except.ok p)
    (hNs : w.createNamespace = Except.ok ())
    (hHelmNew : w.helmNew = Except.ok ())
    (hUpgrade : ∀ chart, w.helmUpgrade chart = Except.ok ())
    (hPods : ∃ pl, w.getPods = Except.ok pl)
    (hDelPod : ∀ a b, w.deletePod a b = Except.ok ())
    (hNotReady : ∀ a ∈ w.isPodReadyAttempts, a ≠ Except.ok (some true)) :
    (∃ e, (deploy_stateless_service w target service).2 =
      Except.error (EngineError.k8sPodNotReady
        (service.get_event_details (Stage.Environment EnvironmentStep.Deploy))
        (service.selector.getD "") target.environment.namespace' e)) ∧
    (∃ e, (deploy_stateful_service w target service event_details).2 =
      Except.error (EngineError.databaseFailedToStartAfterSeveralRetries event_details
        service.name_with_id service.service_type.name (some e))) := by
  obtain ⟨c, hc⟩ := hTera
  obtain ⟨p, hp⟩ := hKube
  obtain ⟨e0, he0⟩ := isPodReadyRetry_not_ready w.isPodReadyAttempts hNotReady
  have hSweep : ∀ ns sel evt, (delete_pending_service w ns sel evt).2 = Except.ok () :=
    fun ns sel evt => delete_pending_service_ok w ns sel evt ⟨_, hPods.choose_spec⟩ hDelPod
  constructor
  · exact ⟨e0, by
      simp [deploy_stateless_service, hc, hCopy, hp, hNs, hHelmNew, hUpgrade, hSweep, he0]⟩
  · exact ⟨e0, by
      simp [deploy_stateful_service, hManaged, hc, hCopy, hp, hNs, hHelmNew, hUpgrade,
        hSweep, he0]⟩

/-- C10: for a managed database, `scale_down_database` returns success
immediately and performs no collaborator call at all (no kubeconfig
resolution, no replica scaling), regardless of the requested replica count. -/
theorem scale_down_database_managed_noop (w : World) (target : DeploymentTarget)
    (service : Service) (replicas_count : Nat)
    (hManaged : service.is_managed_service = true) :
    scale_down_database w target service replicas_count = ([], Except.ok ()) := by
  simp [scale_down_database, hManaged]

theorem deploy_stateless_service_upgrade_chart (w : World) (target : DeploymentTarget)
    (service : Service) (chart : ChartInfo)
    (hMem : Op.helmUpgrade chart ∈ (deploy_stateless_service w target service).1) :
    chart = ChartInfo.new_from_custom_namespace service.helm_release_name
      service.workspace_directory target.environment.namespace' 600
      (match service.service_type with
       | ServiceType.Database _ => [service.workspace_directory ++ "/q-values.yaml"]
       | _ => [])
      false service.selector := by
  simp only [deploy_stateless_service] at hMem
  repeat' split at hMem
  all_goals
    simp_all [delete_pending_service_no_helmUpgrade]

theorem deploy_stateful_service_upgrade_chart (w : World) (target : DeploymentTarget)
    (service : Service) (event_details : EventDetails) (chart : ChartInfo)
    (hMem : Op.helmUpgrade chart ∈ (deploy_stateful_service w target service event_details).1) :
    chart = ChartInfo.new_from_custom_namespace service.helm_release_name
      service.workspace_directory target.environment.namespace' 600
      (match service.service_type with
       | ServiceType.Database _ => [service.workspace_directory ++ "/q-values.yaml"]
       | _ => [])
      false service.selector := by
  simp only [deploy_stateful_service] at hMem
  repeat' split at hMem
  all_goals
    simp_all [delete_pending_service_no_helmUpgrade]

/-- C2: every chart upgrade issued by `deploy_stateless_service` or
`deploy_stateful_service` targets the rendered workspace directory, has atomic
rollback-on-failure enabled, a 600-second timeout, the selector derived from
the service, and passes the `<workspace_dir>/q-values.yaml` value-override file
exactly when the service is database-typed (no value files otherwise). -/
theorem helm_upgrade_chart_configuration (w : World) (target : DeploymentTarget)
    (service : Service) (event_details : EventDetails) (chart : ChartInfo)
    (hMem : Op.helmUpgrade chart ∈ (deploy_stateless_service w target service).1 ∨
      Op.helmUpgrade chart ∈ (deploy_stateful_service w target service event_details).1) :
    chart.path = service.workspace_directory ∧
    chart.atomic = true ∧
    chart.timeout_in_seconds = 600 ∧
    chart.k8s_selector = service.selector ∧
    chart.values_files =
      (match service.service_type with
       | ServiceType.Database _ => [service.workspace_directory ++ "/q-values.yaml"]
       | _ => []) := by
  have hc : chart = ChartInfo.new_from_custom_namespace service.helm_release_name
      service.workspace_directory target.environment.namespace' 600
      (match service.service_type with
       | ServiceType.Database _ => [service.workspace_directory ++ "/q-values.yaml"]
       | _ => [])
      false service.selector := by
    cases hMem with
    | inl h => exact deploy_stateless_service_upgrade_chart w target service chart h
    | inr h => exact deploy_stateful_service_upgrade_chart w target service event_details chart h
  subst hc
  simp [ChartInfo.new_from_custom_namespace]

/-- C5: for a managed service whose templates render, once the destroy
pipeline succeeds the delete call returns success whatever happens to the
best-effort secret cleanup, and (as soon as the kubeconfig resolves) a deletion
of the secret `tfstate-default-<service id>` is issued against the cluster;
when the destroy pipeline fails, the classified provisioning error is returned
and no secret deletion is attempted. -/
theorem delete_stateful_managed_secret_cleanup (w : World) (target : DeploymentTarget)
    (service : Service) (event_details : EventDetails)
    (hManaged : service.is_managed_service = true)
    (hTera : ∃ c, w.teraContext = Except.ok c)
    (hCopy : ∀ src dst, w.templateCopy src dst = Except.ok ()) :
    (w.terraformInitValidateDestroy = Except.ok () →
      (delete_stateful_service w target service event_details).2 = Except.ok () ∧
      ((∃ p, w.kubeconfig = Except.ok p) →
        Op.deleteSecret target.environment.namespace' ("tfstate-default-" ++ service.id) ∈
          (delete_stateful_service w target service event_details).1)) ∧
    (∀ e, w.terraformInitValidateDestroy = Except.error e →
      (delete_stateful_service w target service event_details).2 =
        Except.error (EngineError.terraformErrorWhileExecutingDestroyPipeline event_details e) ∧
      ∀ ns name, Op.deleteSecret ns name ∉
        (delete_stateful_service w target service event_details).1) := by
  obtain ⟨c, hc⟩ := hTera
  constructor
  · intro hDestroy
    constructor
    · simp [delete_stateful_service, hManaged, hc, hCopy, hDestroy]
    · rintro ⟨p, hp⟩
      simp [delete_stateful_service, hManaged, hc, hCopy, hDestroy,
        delete_terraform_tfstate_secret, hp, get_tfstate_name]
  · intro e hDestroy
    constructor
    · simp [delete_stateful_service, hManaged, hc, hCopy, hDestroy]
    · intro ns name
      simp [delete_stateful_service, hManaged, hc, hCopy, hDestroy]

theorem deletePendingPodsLoop_sound (w : World) (evt : EventDetails) :
    ∀ pods pns pname, Op.deletePod pns pname ∈ (deletePendingPodsLoop w evt pods).1 →
      ∃ pod ∈ pods, pod.status.phase = KubernetesPodStatusPhase.Pending ∧
        pod.metadata.namespace' = pns ∧ pod.metadata.name = pname := by
  intro pods
  induction pods with
  | nil => simp [deletePendingPodsLoop]
  | cons pod rest ih =>
    intro pns pname hMem
    unfold deletePendingPodsLoop at hMem
    by_cases h : pod.status.phase = KubernetesPodStatusPhase.Pending
    · simp only [h, if_true] at hMem
      cases hd : w.deletePod pod.metadata.namespace' pod.metadata.name with
      | error e =>
        rw [hd] at hMem
        simp at hMem
        exact ⟨pod, List.mem_cons_self pod rest, h, hMem.1.symm, hMem.2.symm⟩
      | ok u =>
        rw [hd] at hMem
        simp at hMem
        rcases hMem with ⟨h1, h2⟩ | hRest
        · exact ⟨pod, List.mem_cons_self pod rest, h, h1.symm, h2.symm⟩
        · obtain ⟨q, hq, hqp, hq1, hq2⟩ := ih pns pname hRest
          exact ⟨q, List.mem_cons_of_mem pod hq, hqp, hq1, hq2⟩
    · simp only [h, if_false] at hMem
      obtain ⟨q, hq, hqp, hq1, hq2⟩ := ih pns pname hMem
      exact ⟨q, List.mem_cons_of_mem pod hq, hqp, hq1, hq2⟩

theorem deletePendingPodsLoop_complete (w : World) (evt : EventDetails)
    (hDel : ∀ a b, w.deletePod a b = Except.ok ()) :
    ∀ pods, ∀ pod ∈ pods, pod.status.phase = KubernetesPodStatusPhase.Pending →
      Op.deletePod pod.metadata.namespace' pod.metadata.name ∈
        (deletePendingPodsLoop w evt pods).1 := by
  intro pods
  induction pods with
  | nil => simp
  | cons q rest ih =>
    intro pod hMem hPhase
    unfold deletePendingPodsLoop
    rcases List.mem_cons.mp hMem with rfl | hRest
    · simp [hPhase, hDel]
    · by_cases h : q.status.phase = KubernetesPodStatusPhase.Pending
      · simp [h, hDel]
        exact Or.inr (ih pod hRest hPhase)
      · simp [h]
        exact ih pod hRest hPhase

/-- C7: the pending-pod sweep deletes only pods whose phase is `Pending`
(soundness, whatever the collaborator outcomes), and, when the individual pod
deletions succeed, it issues a deletion for every pending pod in the list
returned for the selector (completeness). -/
theorem pending_sweep_targets_exactly_pending (w : World) (ns sel : String)
    (evt : EventDetails) (pods : KubernetesPodsList)
    (hPods : w.getPods = Except.ok pods) :
    (∀ pns pname, Op.deletePod pns pname ∈ (delete_pending_service w ns sel evt).1 →
      ∃ pod ∈ pods.items, pod.status.phase = KubernetesPodStatusPhase.Pending ∧
        pod.metadata.namespace' = pns ∧ pod.metadata.name = pname) ∧
    ((∀ a b, w.deletePod a b = Except.ok ()) →
      ∀ pod ∈ pods.items, pod.status.phase = KubernetesPodStatusPhase.Pending →
        Op.deletePod pod.metadata.namespace' pod.metadata.name ∈
          (delete_pending_service w ns sel evt).1) := by
  constructor
  · intro pns pname hMem
    simp only [delete_pending_service, hPods] at hMem
    simp at hMem
    exact deletePendingPodsLoop_sound w evt pods.items pns pname hMem
  · intro hDel pod hMem hPhase
    simp only [delete_pending_service, hPods]
    simp
    exact deletePendingPodsLoop_complete w evt hDel pods.items pod hMem hPhase

theorem string_append_ne_empty_right (a b : String) (h : b ≠ "") : a ++ b ≠ "" := by
  intro hc
  apply h
  have hl := congrArg String.length hc
  rw [String.length_append] at hl
  have hz : ("" : String).length = 0 := rfl
  rw [hz] at hl
  have : b.length = 0 := by omega
  cases b with
  | mk data =>
    cases data with
    | nil => rfl
    | cons x xs => simp [String.length] at this

/-- C4: the version check yields no advisory message and identical
requested/matched versions when the observed version string equals the
requested one; yields a non-empty advisory message with the matched version
reflecting the observed string when they differ; and returns the typed
"unsupported version" error when the collaborator fails to resolve a version. -/
theorem check_service_version_spec
    (from_str : String → Except CommandError VersionsNumber)
    (service : Service) (event_details : EventDetails) :
    (∀ n, from_str service.version = Except.ok n →
      (check_service_version from_str (Except.ok service.version) service
        event_details).2 = Except.ok ⟨n, n, none⟩) ∧
    (∀ version n1 n2, service.version ≠ version →
      from_str service.version = Except.ok n1 → from_str version = Except.ok n2 →
      ∃ msg, (check_service_version from_str (Except.ok version) service
        event_details).2 = Except.ok ⟨n1, n2, some msg⟩ ∧ msg ≠ "") ∧
    (∀ e, (check_service_version from_str (Except.error e) service event_details).2 =
      Except.error (EngineError.unsupportedVersionError event_details
        service.service_type.name service.version)) := by
  refine ⟨?_, ?_, ?_⟩
  · intro n hn
    simp [check_service_version, hn]
  · intro version n1 n2 hne h1 h2
    refine ⟨service.service_type.name ++ " version `" ++ service.version ++
      "` has been requested by the user; but matching version is `" ++ version ++ "`",
      ?_, ?_⟩
    · simp [check_service_version, hne, h1, h2]
    · exact string_append_ne_empty_right _ _ (by decide)
  · intro e
    simp [check_service_version]

/-- C6: both lifecycle dispatchers invoke exactly the one handler matching the
declared action and no other (at most one handler per call), and a `Nothing`
action makes both `exec_action` and `exec_check_action` succeed without
invoking any handler. -/
theorem exec_action_dispatch (service : Service) (target : DeploymentTarget) :
    ((StatelessService.exec_action service target).1.length ≤ 1 ∧
     (StatefulService.exec_action service target).1.length ≤ 1) ∧
    (service.action = Action.Create →
      StatelessService.exec_action service target = ([Handler.onCreate], service.on_create) ∧
      StatefulService.exec_action service target = ([Handler.onCreate], service.on_create)) ∧
    (service.action = Action.Pause →
      StatelessService.exec_action service target = ([Handler.onPause], service.on_pause) ∧
      StatefulService.exec_action service target = ([Handler.onPause], service.on_pause)) ∧
    (service.action = Action.Delete →
      StatelessService.exec_action service target = ([Handler.onDelete], service.on_delete) ∧
      StatefulService.exec_action service target = ([Handler.onDelete], service.on_delete)) ∧
    (service.action = Action.Nothing →
      StatelessService.exec_action service target = ([], Except.ok ()) ∧
      StatefulService.exec_action service target = ([], Except.ok ()) ∧
      StatelessService.exec_check_action service = ([], Except.ok ()) ∧
      StatefulService.exec_check_action service = ([], Except.ok ())) := by
  cases h : service.action <;>
    simp [StatelessService.exec_action, StatefulService.exec_action,
      StatelessService.exec_check_action, StatefulService.exec_check_action, h]

/-- C8: the error-reporting pipeline is fault tolerant to diagnostic
gathering. A success result is returned unchanged; on a failed operation whose
diagnostic gathering itself fails, the gathering failure is logged, the Debug
progress event carries the substituted `<no debug logs>` text, and the
returned error is derived from the original operation failure (its underlying
collaborator error), not from the gathering failure. -/
theorem error_report_tolerates_gather_failure (w : World) (target : DeploymentTarget)
    (service : Service) (event_details : EventDetails) (action_verb : String)
    (action : CheckAction) :
    (check_kubernetes_service_error w (Except.ok ()) service event_details target
      action_verb action).2 = Except.ok () ∧
    (∀ err gops gErr,
      get_stateless_resource_information_for_user w target.environment service
        event_details = (gops, Except.error gErr) →
      (check_kubernetes_service_error w (Except.error err) service event_details target
        action_verb action).2 =
        Except.error (EngineError.k8sServiceIssue event_details
          (err.underlyingError.getD ⟨""⟩)) ∧
      Op.logDebug event_details "<no debug logs>" ∈
        (check_kubernetes_service_error w (Except.error err) service event_details target
          action_verb action).1 ∧
      Op.logError gErr (some ("error while retrieving debug logs from " ++
        service.service_type.name ++ " " ++ service.name_with_id)) ∈
        (check_kubernetes_service_error w (Except.error err) service event_details target
          action_verb action).1) := by
  constructor
  · cases action <;> simp [check_kubernetes_service_error]
  · intro err gops gErr hGather
    refine ⟨?_, ?_, ?_⟩
    · cases action <;>
        simp [check_kubernetes_service_error, debug_logs, hGather]
    · cases action <;>
        simp [check_kubernetes_service_error, debug_logs, hGather]
    · cases action <;>
        simp [check_kubernetes_service_error, debug_logs, hGather]

theorem appReporterWaitLoop_isSome :
    ∀ outs, (∃ o ∈ outs, o ≠ RecvOutcome.timeout) →
      (appReporterWaitLoop outs).isSome = true := by
  intro outs
  induction outs with
  | nil => intro h; simp at h
  | cons o rest ih =>
    intro h
    cases o with
    | timeout =>
      have hrest : ∃ x ∈ rest, x ≠ RecvOutcome.timeout := by
        rcases h with ⟨x, hx, hxt⟩
        rcases List.mem_cons.mp hx with rfl | hxr
        · exact absurd rfl hxt
        · exact ⟨x, hxr, hxt⟩
      have hs := ih hrest
      simp only [appReporterWaitLoop]
      cases hv : appReporterWaitLoop rest with
      | none => rw [hv] at hs; simp at hs
      | some n => simp
    | value => simp [appReporterWaitLoop]
    | disconnected => simp [appReporterWaitLoop]

theorem taskReporterWaitLoop_isSome :
    ∀ outs, (∃ o ∈ outs, o ≠ RecvOutcome.timeout) →
      (taskReporterWaitLoop outs).isSome = true := by
  intro outs
  induction outs with
  | nil => intro h; simp at h
  | cons o rest ih =>
    intro h
    cases o with
    | timeout =>
      have hrest : ∃ x ∈ rest, x ≠ RecvOutcome.timeout := by
        rcases h with ⟨x, hx, hxt⟩
        rcases List.mem_cons.mp hx with rfl | hxr
        · exact absurd rfl hxt
        · exact ⟨x, hxr, hxt⟩
      have hs := ih hrest
      simp only [taskReporterWaitLoop]
      cases hv : taskReporterWaitLoop rest with
      | none => rw [hv] at hs; simp at hs
      | some n => simp
    | value => simp [taskReporterWaitLoop]
    | disconnected => simp [taskReporterWaitLoop]

/-- C9: both background reporters' wait loops break as soon as the channel
poll yields a received value or a disconnection; hence, once the poll-outcome
sequence contains a non-timeout outcome (the sender sent the stop signal or
was dropped), neither loop runs forever. -/
theorem reporter_wait_loops_terminate (outs : List RecvOutcome)
    (h : ∃ o ∈ outs, o ≠ RecvOutcome.timeout) :
    (appReporterWaitLoop outs).isSome = true ∧
    (taskReporterWaitLoop outs).isSome = true :=
  ⟨appReporterWaitLoop_isSome outs h, taskReporterWaitLoop_isSome outs h⟩

/-- C3: `Service::fqdn` returns the input fqdn unchanged for a publicly
accessible service; otherwise it synthesizes `<id>-dns.<namespace>.svc.cluster.local`
when `is_managed` and `<sanitized_name>.<namespace>.svc.cluster.local` when not,
where the namespace is the target environment's namespace. -/
theorem fqdn_spec (s : Service) (target : DeploymentTarget) (fqdn : String)
    (is_managed : Bool) :
    Service.fqdn s target fqdn is_managed =
      if s.publicly_accessible then fqdn
      else if is_managed then
        s.id ++ "-dns." ++ target.environment.namespace' ++ ".svc.cluster.local"
      else
        s.sanitized_name ++ "." ++ target.environment.namespace' ++ ".svc.cluster.local" := by
  unfold Service.fqdn
  cases hp : s.publicly_accessible <;> cases is_managed <;> simp

theorem release_deploy_unready_returns_failed_to_start_witness :
    (∃ e, (deploy_stateless_service sampleWorldNotReady sampleTarget sampleDbService).2 =
      Except.error (EngineError.k8sPodNotReady
        (sampleDbService.get_event_details (Stage.Environment EnvironmentStep.Deploy))
        (sampleDbService.selector.getD "") sampleTarget.environment.namespace' e)) ∧
    (∃ e, (deploy_stateful_service sampleWorldNotReady sampleTarget sampleDbService
        sampleEventDetails).2 =
      Except.error (EngineError.databaseFailedToStartAfterSeveralRetries sampleEventDetails
        sampleDbService.name_with_id sampleDbService.service_type.name (some e))) :=
  release_deploy_unready_returns_failed_to_start sampleWorldNotReady sampleTarget
    sampleDbService sampleEventDetails rfl ⟨⟨⟩, rfl⟩ (fun _ _ => rfl)
    ⟨"/kube/config", rfl⟩ rfl rfl (fun _ => rfl) ⟨⟨[]⟩, rfl⟩ (fun _ _ => rfl) (by decide)

theorem helm_upgrade_chart_configuration_witness :
    Op.helmUpgrade sampleChart ∈
      (deploy_stateless_service sampleWorldOk sampleTarget sampleDbService).1 ∧
    (sampleChart.path = sampleDbService.workspace_directory ∧
     sampleChart.atomic = true ∧
     sampleChart.timeout_in_seconds = 600 ∧
     sampleChart.k8s_selector = sampleDbService.selector ∧
     sampleChart.values_files =
       (match sampleDbService.service_type with
        | ServiceType.Database _ => [sampleDbService.workspace_directory ++ "/q-values.yaml"]
        | _ => [])) :=
  have hMem : Op.helmUpgrade sampleChart ∈
      (deploy_stateless_service sampleWorldOk sampleTarget sampleDbService).1 := by decide
  ⟨hMem, helm_upgrade_chart_configuration sampleWorldOk sampleTarget sampleDbService
    sampleEventDetails sampleChart (Or.inl hMem)⟩

theorem check_service_version_spec_witness :
    (check_service_version sampleFromStr (Except.ok "12") sampleDbService
      sampleEventDetails).2 = Except.ok ⟨⟨"12"⟩, ⟨"12"⟩, none⟩ :=
  (check_service_version_spec sampleFromStr sampleDbService sampleEventDetails).1 ⟨"12"⟩ rfl

theorem delete_stateful_managed_secret_cleanup_witness :
    (delete_stateful_service sampleWorldOk sampleTarget sampleManagedService
      sampleEventDetails).2 = Except.ok () ∧
    Op.deleteSecret sampleTarget.environment.namespace'
        ("tfstate-default-" ++ sampleManagedService.id) ∈
      (delete_stateful_service sampleWorldOk sampleTarget sampleManagedService
        sampleEventDetails).1 :=
  have h := delete_stateful_managed_secret_cleanup sampleWorldOk sampleTarget
    sampleManagedService sampleEventDetails rfl ⟨⟨⟩, rfl⟩ (fun _ _ => rfl)
  ⟨(h.1 rfl).1, (h.1 rfl).2 ⟨"/kube/config", rfl⟩⟩

theorem exec_action_dispatch_witness :
    StatelessService.exec_action sampleDbService sampleTarget =
      ([Handler.onCreate], sampleDbService.on_create) ∧
    StatefulService.exec_action sampleDbService sampleTarget =
      ([Handler.onCreate], sampleDbService.on_create) :=
  (exec_action_dispatch sampleDbService sampleTarget).2.1 rfl

theorem pending_sweep_targets_exactly_pending_witness :
    Op.deletePod samplePendingPod.metadata.namespace' samplePendingPod.metadata.name ∈
      (delete_pending_service sampleWorldPods "env-123" "databaseId=zd1"
        sampleEventDetails).1 :=
  (pending_sweep_targets_exactly_pending sampleWorldPods "env-123" "databaseId=zd1"
      sampleEventDetails ⟨[samplePendingPod, sampleRunningPod]⟩ rfl).2
    (fun _ _ => rfl) samplePendingPod (by simp) rfl

theorem error_report_tolerates_gather_failure_witness :
    (check_kubernetes_service_error sampleWorldGatherFail (Except.error sampleOpError)
      sampleDbService sampleEventDetails sampleTarget "Deployment" CheckAction.Deploy).2 =
      Except.error (EngineError.k8sServiceIssue sampleEventDetails
        (sampleOpError.underlyingError.getD ⟨""⟩)) ∧
    Op.logDebug sampleEventDetails "<no debug logs>" ∈
      (check_kubernetes_service_error sampleWorldGatherFail (Except.error sampleOpError)
        sampleDbService sampleEventDetails sampleTarget "Deployment" CheckAction.Deploy).1 ∧
    Op.logError sampleGatherError (some ("error while retrieving debug logs from " ++
      sampleDbService.service_type.name ++ " " ++ sampleDbService.name_with_id)) ∈
      (check_kubernetes_service_error sampleWorldGatherFail (Except.error sampleOpError)
        sampleDbService sampleEventDetails sampleTarget "Deployment" CheckAction.Deploy).1 :=
  (error_report_tolerates_gather_failure sampleWorldGatherFail sampleTarget sampleDbService
    sampleEventDetails "Deployment" CheckAction.Deploy).2 sampleOpError
    [Op.getKubeconfig, Op.getLogs "env-123" "databaseId=zd1"] sampleGatherError rfl

theorem reporter_wait_loops_terminate_witness :
    (appReporterWaitLoop [RecvOutcome.timeout, RecvOutcome.value]).isSome = true ∧
    (taskReporterWaitLoop [RecvOutcome.timeout, RecvOutcome.value]).isSome = true :=
  reporter_wait_loops_terminate [RecvOutcome.timeout, RecvOutcome.value]
    ⟨RecvOutcome.value, by decide, by decide⟩

theorem scale_down_database_managed_noop_witness :
    scale_down_database sampleWorldOk sampleTarget sampleManagedService 0 =
      ([], Except.ok ()) :=
  scale_down_database_managed_noop sampleWorldOk sampleTarget sampleManagedService 0 rfl

end EngineService
